import Mathlib

/-!
Verification of the stripe-backend identity-resolver cache and the
error-mapping branches of the HTTP handlers, shallowly embedded from the
JavaScript sources (`src/server.js` and the unnamed Express backends).

The embedding below models:
* the process-wide `customerMap` (a JS `Map` from firebase user ids to
  Stripe customer ids) as an association list with JS `Map` semantics;
* the paginated `stripe.customers.list` scan of the create-customer and
  payment-methods handlers, with the vendor directory as a finite list of
  customer records and `starting_after` pagination rendered as consuming
  the remaining suffix of the directory (vendor ids are unique, so the
  cursor set to the last record of a page resumes exactly at the suffix
  after that page); `has_more` is reported exactly when records remain
  beyond the returned page;
* a fallible environment: the `failAt` parameter names the index of the
  list request (0-based) at which the vendor throws, `none` meaning no
  request fails, matching the inner try/catch around the scan;
* the `catch` blocks of the setup-intent, payment-intent, bank-payout and
  transfer-to-provider handlers as pure functions from the caught vendor
  error to the HTTP response.
-/

namespace StripeBackend

/-- A vendor customer record as the handlers see it: its id and the
optional `metadata.firebaseUserId` field (`customer.metadata?.firebaseUserId`
is `undefined` when metadata or the field is missing, modelled as `none`). -/
structure Customer where
  id : String
  firebaseUserId : Option String
deriving Repr, DecidableEq

/-- The in-memory `customerMap`: an association list of
(firebaseUserId, stripeCustomerId) pairs in insertion order. -/
abbrev Cache := List (String × String)

/-- `customerMap.get(k)`: the value stored at `k`, `none` when absent. -/
def mapGet : Cache → String → Option String
  | [], _ => none
  | (k0, v0) :: rest, k => if k0 = k then some v0 else mapGet rest k

/-- `customerMap.set(k, v)`: JS `Map.set` replaces the binding in place
when the key is present and appends it otherwise. -/
def mapSet : Cache → String → String → Cache
  | [], k, v => [(k, v)]
  | (k0, v0) :: rest, k, v =>
    if k0 = k then (k, v) :: rest else (k0, v0) :: mapSet rest k v

/-- JS truthiness of a possibly-absent string (`!customerId`):
`undefined` and the empty string are falsy. -/
def jsFalsy : Option String → Bool
  | none => true
  | some s => s = ""

/-- Result of the `while (hasMore && !foundCustomer)` directory scan:
the matching record when one was found, or not-found, or the exception
propagated out of a `stripe.customers.list` call; each constructor
carries the number of list requests issued (the throwing one included). -/
inductive ScanOut where
  | found (c : Customer) (requests : Nat)
  | notFound (requests : Nat)
  | failed (requests : Nat)
deriving Repr, DecidableEq

/-- Number of `stripe.customers.list` requests the scan issued. -/
def ScanOut.requests : ScanOut → Nat
  | .found _ n => n
  | .notFound n => n
  | .failed n => n

/-- One turn of the scan loop of the create-customer / payment-methods
handlers, entered with `remaining` the suffix of the directory after the
current `starting_after` cursor and `i` the index of the next list request.
The request returns the page `remaining.take 100` (`limit: 100`) and
`has_more` true iff records remain beyond it; the loop body looks for a
record whose `metadata.firebaseUserId` equals `uid`, then exits when
`has_more` is false or the page is shorter than 100 records, else advances
the cursor to the last record of the page, i.e. to the suffix
`remaining.drop 100`. -/
def scanGo (uid : String) (failAt : Option Nat) (remaining : List Customer)
    (i : Nat) : ScanOut :=
  if failAt = some i then
    .failed (i + 1)
  else
    match (remaining.take 100).find? (fun c => c.firebaseUserId == some uid) with
    | some c => .found c (i + 1)
    | none =>
      if remaining.drop 100 = [] ∨ (remaining.take 100).length < 100 then
        .notFound (i + 1)
      else
        scanGo uid failAt (remaining.drop 100) (i + 1)
termination_by remaining.length
decreasing_by
  rename_i h
  simp only [List.length_drop]
  have hne : ¬ remaining.drop 100 = [] := fun hh => h (Or.inl hh)
  have hlt : 100 < remaining.length := by
    by_contra hle
    exact hne (List.drop_eq_nil_of_le (by omega))
  omega

/-- The full scan as the handlers start it: cursor at the beginning of the
directory, first request index 0. -/
def scan (uid : String) (failAt : Option Nat) (dir : List Customer) : ScanOut :=
  scanGo uid failAt dir 0

/-- Response of the create-customer handler: `res.json(\x7b customerId \x7d)`
(HTTP 200) or the 400 validation response. -/
inductive CCResp where
  | ok (customerId : String)
  | badRequest (msg : String)
deriving Repr, DecidableEq

/-- Observable outcome of one create-customer request: the response, the
`customerMap` afterwards, the number of `stripe.customers.list` requests
issued, and the list of vendor records created by `stripe.customers.create`
(each tagged with `metadata.firebaseUserId`). -/
structure CCOut where
  resp : CCResp
  cacheAfter : Cache
  listCalls : Nat
  creates : List Customer
deriving Repr, DecidableEq

/-- `POST /api/stripe/create-customer` of the unnamed backend
(part_001 lines 752-831): reject a falsy `userId`; return the cached id on
a cache hit (`customerMap.has` then `.get`, modelled as one lookup); else
scan the directory, returning and caching a found record id; on not-found
or on a scan error (swallowed by the inner catch) create a new customer
whose id the vendor assigns as `newId`, cache it and return it. -/
def createCustomer (dir : List Customer) (failAt : Option Nat) (newId : String)
    (cache : Cache) (userId : String) : CCOut :=
  if userId = "" then
    ⟨.badRequest "userId is required", cache, 0, []⟩
  else
    match mapGet cache userId with
    | some customerId => ⟨.ok customerId, cache, 0, []⟩
    | none =>
      match scan userId failAt dir with
      | .found c n => ⟨.ok c.id, mapSet cache userId c.id, n, []⟩
      | .notFound n =>
        ⟨.ok newId, mapSet cache userId newId, n, [⟨newId, some userId⟩]⟩
      | .failed n =>
        ⟨.ok newId, mapSet cache userId newId, n, [⟨newId, some userId⟩]⟩

/-- `POST /api/stripe/create-customer` of `src/server.js` (lines 31-65):
same shape without the directory scan — cache hit returns the cached id,
otherwise a new customer is created, cached and returned. -/
def createCustomerSimple (newId : String) (cache : Cache) (userId : String) :
    CCOut :=
  if userId = "" then
    ⟨.badRequest "userId is required", cache, 0, []⟩
  else
    match mapGet cache userId with
    | some customerId => ⟨.ok customerId, cache, 0, []⟩
    | none => ⟨.ok newId, mapSet cache userId newId, 0, [⟨newId, some userId⟩]⟩

/-- Body of the payment-methods response: the empty list
(`res.json` of paymentMethods: []) or the formatted card list fetched for
the resolved customer id. -/
inductive PMBody where
  | emptyList
  | methodsFor (customerId : String)
deriving Repr, DecidableEq

/-- Observable outcome of one payment-methods request. -/
structure PMOut where
  status : Nat
  body : PMBody
  cacheAfter : Cache
  listCalls : Nat
deriving Repr, DecidableEq

/-- `GET /api/stripe/payment-methods/:userId` of the unnamed backend
(part_001 lines 896-975): read `customerMap.get(userId)`; when falsy, run
the same directory scan (errors swallowed), caching a found id; then a
still-falsy `customerId` answers 200 with an empty list, otherwise the
cards of `customerId` are listed and returned with 200. -/
def paymentMethods (dir : List Customer) (failAt : Option Nat) (cache : Cache)
    (userId : String) : PMOut :=
  let c0 := mapGet cache userId
  let step :=
    if jsFalsy c0 then
      match scan userId failAt dir with
      | .found c n => (some c.id, mapSet cache userId c.id, n)
      | .notFound n => (c0, cache, n)
      | .failed n => (c0, cache, n)
    else
      (c0, cache, 0)
  if jsFalsy step.1 then
    ⟨200, .emptyList, step.2.1, step.2.2⟩
  else
    ⟨200, .methodsFor (step.1.getD ""), step.2.1, step.2.2⟩

/-- `GET /api/stripe/payment-methods/:userId` of `src/server.js`
(lines 143-176): no scan; a falsy `customerMap.get(userId)` answers 200
with an empty list, otherwise the cards of the cached id are returned. -/
def paymentMethodsSimple (cache : Cache) (userId : String) : PMOut :=
  let c0 := mapGet cache userId
  if jsFalsy c0 then
    ⟨200, .emptyList, cache, 0⟩
  else
    ⟨200, .methodsFor (c0.getD ""), cache, 0⟩

/-- A JS error thrown by a Stripe SDK call, as the catch blocks read it:
`message` (a string), and the optional `code` and `type` fields. -/
structure VendorError where
  message : String
  code : Option String := none
  errType : Option String := none
deriving Repr, DecidableEq

/-- JSON error response assembled by a catch block: HTTP status, the
`error` field, and the optional `code` / `message` / `type` fields some
branches add. -/
structure ErrResp where
  status : Nat
  error : String
  code : Option String := none
  message : Option String := none
  errType : Option String := none
deriving Repr, DecidableEq

/-- JS `s.includes(sub)`: `sub` occurs as a contiguous substring of `s`. -/
def strIncludes (s sub : String) : Bool :=
  (List.range (s.toList.length + 1)).any
    (fun i => sub.toList.isPrefixOf (s.toList.drop i))

/-- Catch block of `POST /api/stripe/create-setup-intent` in `src/server.js`
(lines 122-139): the test/live mode mismatch
(`resource_missing` with a message mentioning test mode) is remapped to
400, every other error is 500 with the vendor message and its
type/code defaulted to unknown. -/
def setupIntentCatch (e : VendorError) : ErrResp :=
  if e.code = some "resource_missing" ∧ strIncludes e.message "test mode" then
    { status := 400
      error := "CUSTOMER_MODE_MISMATCH"
      message := some "The customer was created with a test Stripe key, but the server is now using a live key. Please delete the stripeCustomerId from Firestore and try again." }
  else
    { status := 500
      error := e.message
      errType := some (e.errType.getD "unknown")
      code := some (e.code.getD "unknown") }

/-- Catch block of `POST /api/stripe/create-payment-intent` in
`src/server.js` (lines 97-100): every error is 500 with the vendor
message. -/
def paymentIntentCatch (e : VendorError) : ErrResp :=
  { status := 500, error := e.message }

/-- Catch block of `POST /api/stripe/create-bank-payout` in the unnamed
backend (part_001 lines 1181-1204): three guidance branches remap errors
to 400 by code or by substring of the message, everything else is 500
with the vendor message. -/
def bankPayoutCatch (e : VendorError) : ErrResp :=
  if e.code = some "account_invalid" ∨ strIncludes e.message "account" ∨
      e.code = some "account_required" then
    { status := 400
      error := "Your Stripe account needs to be set up for payouts. Please complete the setup in your Stripe Dashboard: 1) Verify your identity, 2) Add a bank account, 3) Enable payouts in Settings → Payment methods → Payouts. Visit https://dashboard.stripe.com/settings/payouts" }
  else if e.code = some "invalid_request_error" ∧
      strIncludes e.message "bank_account" then
    { status := 400
      error := "Invalid bank account details. Please check your routing and account numbers." }
  else if e.code = some "payouts_not_allowed" ∨ strIncludes e.message "payout" then
    { status := 400
      error := "Payouts are not enabled for your account. Please complete account verification and add a bank account in your Stripe Dashboard at https://dashboard.stripe.com/settings/payouts" }
  else
    { status := 500, error := e.message }

/-- Catch block of `POST /api/stripe/connect/transfer-to-provider`
(identical in `src/server.js` lines 320-333 and part_001 lines 637-650):
`balance_insufficient` is remapped to 400 with a retry-later message,
everything else is 500 with the vendor message. -/
def transferCatch (e : VendorError) : ErrResp :=
  if e.code = some "balance_insufficient" then
    { status := 400
      error := "Insufficient available balance"
      code := some "balance_insufficient"
      message := some "Transfer will be retried when funds are available" }
  else
    { status := 500, error := e.message }

/-! ### Lemmas about the cache operations -/

theorem mapGet_mapSet_self (m : Cache) (k v : String) :
    mapGet (mapSet m k v) k = some v := by
  induction m with
  | nil => simp [mapGet, mapSet]
  | cons hd tl ih =>
    obtain ⟨k0, v0⟩ := hd
    by_cases h : k0 = k
    · simp [mapGet, mapSet, h]
    · simp [mapGet, mapSet, h, ih]

theorem mapGet_mapSet_ne (m : Cache) (k v k' : String) (h : k' ≠ k) :
    mapGet (mapSet m k v) k' = mapGet m k' := by
  have h2 : ¬ k = k' := fun hh => h hh.symm
  induction m with
  | nil => simp [mapGet, mapSet, h2]
  | cons hd tl ih =>
    obtain ⟨k0, v0⟩ := hd
    by_cases h0 : k0 = k
    · subst h0
      simp [mapGet, mapSet, h2]
    · simp [mapGet, mapSet, h0, ih]

/-! ### Lemmas about the directory scan -/

theorem scanGo_notFound (uid : String) (remaining : List Customer) (i : Nat)
    (h : remaining.find? (fun c => c.firebaseUserId == some uid) = none) :
    ∃ n, scanGo uid none remaining i = .notFound n := by
  rw [scanGo]
  simp only [reduceCtorEq, if_false]
  have hpage : (remaining.take 100).find?
      (fun c => c.firebaseUserId == some uid) = none := by
    rw [List.find?_eq_none] at h ⊢
    exact fun x hx => h x (List.mem_of_mem_take hx)
  rw [hpage]
  by_cases hstop :
      remaining.drop 100 = [] ∨ (remaining.take 100).length < 100
  · exact ⟨i + 1, by rw [if_pos hstop]⟩
  · rw [if_neg hstop]
    have hdrop : (remaining.drop 100).find?
        (fun c => c.firebaseUserId == some uid) = none := by
      rw [List.find?_eq_none] at h ⊢
      exact fun x hx => h x (List.mem_of_mem_drop hx)
    exact scanGo_notFound uid (remaining.drop 100) (i + 1) hdrop
termination_by remaining.length
decreasing_by
  simp only [List.length_drop]
  have hne : ¬ remaining.drop 100 = [] := fun hh => hstop (Or.inl hh)
  have hlt : 100 < remaining.length := by
    by_contra hle
    exact hne (List.drop_eq_nil_of_le (by omega))
  omega

theorem scanGo_found (uid : String) (remaining : List Customer) (i : Nat)
    (c : Customer)
    (h : remaining.find? (fun c => c.firebaseUserId == some uid) = some c) :
    ∃ n, scanGo uid none remaining i = .found c n := by
  have hsplit : remaining.find? (fun c => c.firebaseUserId == some uid) =
      ((remaining.take 100).find? (fun c => c.firebaseUserId == some uid)).or
        ((remaining.drop 100).find? (fun c => c.firebaseUserId == some uid)) := by
    conv_lhs => rw [← List.take_append_drop 100 remaining]
    exact List.find?_append
  rw [scanGo]
  simp only [reduceCtorEq, if_false]
  cases hpage : (remaining.take 100).find?
      (fun c => c.firebaseUserId == some uid) with
  | some c1 =>
    rw [hsplit, hpage] at h
    simp only [Option.or_some] at h
    obtain rfl : c1 = c := by injection h
    exact ⟨i + 1, rfl⟩
  | none =>
    have hdrop : (remaining.drop 100).find?
        (fun c => c.firebaseUserId == some uid) = some c := by
      rw [hsplit, hpage] at h
      simpa using h
    have hne : remaining.drop 100 ≠ [] := by
      intro hh
      rw [hh] at hdrop
      simp [List.find?] at hdrop
    have hfull : ¬ (remaining.take 100).length < 100 := by
      intro hh
      have : remaining.length < 100 := by
        have := List.length_take 100 remaining
        omega
      exact hne (List.drop_eq_nil_of_le (by omega))
    rw [if_neg (by tauto : ¬ (remaining.drop 100 = [] ∨
      (remaining.take 100).length < 100))]
    exact scanGo_found uid (remaining.drop 100) (i + 1) c hdrop
termination_by remaining.length
decreasing_by
  simp only [List.length_drop]
  have hlt : 100 < remaining.length := by
    by_contra hle
    exact hne (List.drop_eq_nil_of_le (by omega))
  omega

theorem scanGo_notFound_count (uid : String) (remaining : List Customer)
    (i : Nat)
    (h : ∀ c ∈ remaining, ¬ (c.firebaseUserId == some uid)) :
    scanGo uid none remaining i =
      .notFound (i + max 1 ((remaining.length + 99) / 100)) := by
  rw [scanGo]
  simp only [reduceCtorEq, if_false]
  have hpage : (remaining.take 100).find?
      (fun c => c.firebaseUserId == some uid) = none := by
    rw [List.find?_eq_none]
    exact fun x hx => h x (List.mem_of_mem_take hx)
  rw [hpage]
  by_cases hstop :
      remaining.drop 100 = [] ∨ (remaining.take 100).length < 100
  · rw [if_pos hstop]
    have hL : remaining.length ≤ 100 := by
      rcases hstop with h1 | h1
      · exact List.drop_eq_nil_iff.mp h1
      · have := List.length_take 100 remaining
        omega
    have hd : (remaining.length + 99) / 100 ≤ 1 := by omega
    rw [max_eq_left hd]
  · rw [if_neg hstop]
    have hne : ¬ remaining.drop 100 = [] := fun hh => hstop (Or.inl hh)
    have hlt : 100 < remaining.length := by
      by_contra hle
      exact hne (List.drop_eq_nil_of_le (by omega))
    have ih := scanGo_notFound_count uid (remaining.drop 100) (i + 1)
      (fun x hx => h x (List.mem_of_mem_drop hx))
    rw [ih]
    have hlen : (remaining.drop 100).length + 99 = remaining.length + 99 - 100 := by
      simp only [List.length_drop]
      omega
    have hdiv : (remaining.length + 99) / 100 =
        ((remaining.drop 100).length + 99) / 100 + 1 := by
      rw [hlen]
      exact Nat.div_eq_sub_div (by omega) (by omega)
    have e1 : 1 ≤ ((remaining.drop 100).length + 99) / 100 := by
      rw [hlen]
      omega
    have e2 : 1 ≤ (remaining.length + 99) / 100 := by omega
    rw [max_eq_right e1, max_eq_right e2, hdiv]
    show ScanOut.notFound (i + 1 + ((remaining.drop 100).length + 99) / 100) =
      ScanOut.notFound (i + (((remaining.drop 100).length + 99) / 100 + 1))
    congr 1
    omega
termination_by remaining.length
decreasing_by
  simp only [List.length_drop]
  omega

/-- The create-customer handler either leaves the cache untouched or, when
the user id was unbound, binds exactly that user id. -/
theorem createCustomer_cacheAfter (dir : List Customer) (failAt : Option Nat)
    (newId : String) (cache : Cache) (v : String) :
    (createCustomer dir failAt newId cache v).cacheAfter = cache ∨
      (mapGet cache v = none ∧
        ∃ x, (createCustomer dir failAt newId cache v).cacheAfter =
          mapSet cache v x) := by
  by_cases hv : v = ""
  · left
    simp [createCustomer, hv]
  · cases hg : mapGet cache v with
    | some c =>
      left
      simp [createCustomer, hv, hg]
    | none =>
      right
      refine ⟨rfl, ?_⟩
      cases hs : scan v failAt dir with
      | found c n => exact ⟨c.id, by simp [createCustomer, hv, hg, hs]⟩
      | notFound n => exact ⟨newId, by simp [createCustomer, hv, hg, hs]⟩
      | failed n => exact ⟨newId, by simp [createCustomer, hv, hg, hs]⟩

/-- Same cache characterization for the scan-free `src/server.js` variant. -/
theorem createCustomerSimple_cacheAfter (newId : String) (cache : Cache)
    (v : String) :
    (createCustomerSimple newId cache v).cacheAfter = cache ∨
      (mapGet cache v = none ∧
        (createCustomerSimple newId cache v).cacheAfter = mapSet cache v newId) := by
  by_cases hv : v = ""
  · left
    simp [createCustomerSimple, hv]
  · cases hg : mapGet cache v with
    | some c =>
      left
      simp [createCustomerSimple, hv, hg]
    | none =>
      right
      exact ⟨rfl, by simp [createCustomerSimple, hv, hg]⟩

/-- The payment-methods handler either leaves the cache untouched or, when
the cached value for the requested user id was falsy, binds that user id. -/
theorem paymentMethods_cacheAfter (dir : List Customer) (failAt : Option Nat)
    (cache : Cache) (v : String) :
    (paymentMethods dir failAt cache v).cacheAfter = cache ∨
      (jsFalsy (mapGet cache v) = true ∧
        ∃ x, (paymentMethods dir failAt cache v).cacheAfter = mapSet cache v x) := by
  by_cases hg : jsFalsy (mapGet cache v) = true
  · cases hs : scan v failAt dir with
    | found c n =>
      right
      refine ⟨hg, c.id, ?_⟩
      simp only [paymentMethods, hg, hs, if_true]
      split <;> rfl
    | notFound n =>
      left
      simp only [paymentMethods, hg, hs, if_true]
    | failed n =>
      left
      simp only [paymentMethods, hg, hs, if_true]
  · left
    have hg2 : jsFalsy (mapGet cache v) = false := by
      cases hb : jsFalsy (mapGet cache v)
      · rfl
      · exact absurd hb hg
    simp only [paymentMethods, hg2, Bool.false_eq_true, if_false]

/-- The scan-free payment-methods handler never writes the cache. -/
theorem paymentMethodsSimple_cacheAfter (cache : Cache) (v : String) :
    (paymentMethodsSimple cache v).cacheAfter = cache := by
  by_cases hg : jsFalsy (mapGet cache v) = true <;>
    simp [paymentMethodsSimple, hg]

theorem scanGo_requests_le (uid : String) (failAt : Option Nat)
    (remaining : List Customer) (i : Nat) :
    (scanGo uid failAt remaining i).requests ≤ i + remaining.length / 100 + 1 := by
  rw [scanGo]
  split
  · simp [ScanOut.requests]
  · split
    · simp [ScanOut.requests]
    · split
      · simp [ScanOut.requests]
      · rename_i hfail hpage hstop
        have hne : ¬ remaining.drop 100 = [] := fun hh => hstop (Or.inl hh)
        have hlt : 100 < remaining.length := by
          by_contra hle
          exact hne (List.drop_eq_nil_of_le (by omega))
        have ih := scanGo_requests_le uid failAt (remaining.drop 100) (i + 1)
        have hdiv : remaining.length / 100 =
            (remaining.length - 100) / 100 + 1 :=
          Nat.div_eq_sub_div (by omega) (by omega)
        simp only [List.length_drop] at ih
        omega
termination_by remaining.length
decreasing_by
  simp only [List.length_drop]
  omega

/-- JS substring monotonicity behind the bank-payout branch order: a
message containing `bank_account` also contains `account`, so the
`invalid_request_error`/`bank_account` branch can never be reached after
the `account` substring branch. -/
theorem strIncludes_account_of_bank_account (s : String)
    (h : strIncludes s "bank_account" = true) :
    strIncludes s "account" = true := by
  unfold strIncludes at h ⊢
  rw [List.any_eq_true] at h ⊢
  obtain ⟨i, hi, hp⟩ := h
  rw [List.mem_range] at hi
  have hp2 : "bank_account".toList <+: s.toList.drop i :=
    List.isPrefixOf_iff_prefix.mp hp
  obtain ⟨r, hr⟩ := hp2
  have h12 : ("bank_account".toList).length = 12 := by decide
  have hlen : 12 ≤ s.toList.length - i := by
    have hle := List.IsPrefix.length_le ⟨r, hr⟩
    rw [h12, List.length_drop] at hle
    exact hle
  have hdrop : s.toList.drop (i + 5) = "account".toList ++ r := by
    rw [← List.drop_drop 5 i s.toList, ← hr,
      show "bank_account".toList = "bank_".toList ++ "account".toList from by decide,
      List.append_assoc]
    exact List.drop_left' (by decide)
  refine ⟨i + 5, ?_, ?_⟩
  · rw [List.mem_range]
    omega
  · show "account".toList.isPrefixOf (s.toList.drop (i + 5)) = true
    rw [hdrop]
    exact List.isPrefixOf_iff_prefix.mpr ⟨r, rfl⟩

/-! ### The claims -/

/-- Claim C1: for a user id absent from the cache and from the directory,
resolution creates exactly one vendor record tagged with that user id in
metadata, stores the mapping, and returns the new customer id; a second
resolution of the same user id (under any vendor environment) is a cache
hit returning the same id with no directory request and no creation. -/
theorem c1_fresh_userId_creates_exactly_once
    (dir : List Customer) (newId : String) (cache : Cache) (u : String)
    (hu : u ≠ "") (hc : mapGet cache u = none)
    (hdir : ∀ c ∈ dir, c.firebaseUserId ≠ some u) :
    (createCustomer dir none newId cache u).resp = .ok newId ∧
    (createCustomer dir none newId cache u).creates = [⟨newId, some u⟩] ∧
    mapGet (createCustomer dir none newId cache u).cacheAfter u = some newId ∧
    ∀ dir2 failAt2 newId2,
      (createCustomer dir2 failAt2 newId2
        (createCustomer dir none newId cache u).cacheAfter u).resp = .ok newId ∧
      (createCustomer dir2 failAt2 newId2
        (createCustomer dir none newId cache u).cacheAfter u).listCalls = 0 ∧
      (createCustomer dir2 failAt2 newId2
        (createCustomer dir none newId cache u).cacheAfter u).creates = [] := by
  have hfind : dir.find? (fun c => c.firebaseUserId == some u) = none := by
    rw [List.find?_eq_none]
    intro x hx
    simpa using hdir x hx
  obtain ⟨n, hscan⟩ := scanGo_notFound u dir 0 hfind
  have h1 : createCustomer dir none newId cache u =
      ⟨.ok newId, mapSet cache u newId, n, [⟨newId, some u⟩]⟩ := by
    simp [createCustomer, scan, hu, hc, hscan]
  refine ⟨?_, ?_, ?_, ?_⟩
  · rw [h1]
  · rw [h1]
  · rw [h1]
    exact mapGet_mapSet_self cache u newId
  · intro dir2 failAt2 newId2
    have h2 : createCustomer dir2 failAt2 newId2 (mapSet cache u newId) u =
        ⟨.ok newId, mapSet cache u newId, 0, []⟩ := by
      simp [createCustomer, hu, mapGet_mapSet_self]
    refine ⟨?_, ?_, ?_⟩ <;> simp only [h1, h2]

/-- Witness for C1 at the concrete input of the spec scenario: empty cache,
empty directory, user `u1`, vendor-assigned id `cus_1`. -/
theorem c1_fresh_userId_creates_exactly_once_witness :
    (createCustomer [] none "cus_1" [] "u1").resp = .ok "cus_1" ∧
    (createCustomer [] none "cus_1" [] "u1").creates = [⟨"cus_1", some "u1"⟩] ∧
    mapGet (createCustomer [] none "cus_1" [] "u1").cacheAfter "u1" = some "cus_1" ∧
    (createCustomer [] none "cus_2"
      (createCustomer [] none "cus_1" [] "u1").cacheAfter "u1").resp = .ok "cus_1" ∧
    (createCustomer [] none "cus_2"
      (createCustomer [] none "cus_1" [] "u1").cacheAfter "u1").listCalls = 0 ∧
    (createCustomer [] none "cus_2"
      (createCustomer [] none "cus_1" [] "u1").cacheAfter "u1").creates = [] := by
  have h := c1_fresh_userId_creates_exactly_once [] "cus_1" [] "u1"
    (by decide) rfl (by simp)
  exact ⟨h.1, h.2.1, h.2.2.1, (h.2.2.2 [] none "cus_2").1,
    (h.2.2.2 [] none "cus_2").2.1, (h.2.2.2 [] none "cus_2").2.2⟩

/-- Claim C2: for a user id absent from the cache but matched by a record
within the first 1000 directory records, resolution returns that record's
id, caches it, and creates no vendor record. -/
theorem c2_directory_hit_no_create
    (dir : List Customer) (newId : String) (cache : Cache) (u : String)
    (hu : u ≠ "") (hc : mapGet cache u = none)
    (hdir : ∃ c ∈ dir.take 1000, c.firebaseUserId = some u) :
    ∃ c, c ∈ dir ∧ c.firebaseUserId = some u ∧
      (createCustomer dir none newId cache u).resp = .ok c.id ∧
      mapGet (createCustomer dir none newId cache u).cacheAfter u = some c.id ∧
      (createCustomer dir none newId cache u).creates = [] := by
  obtain ⟨c0, hc0mem, hc0p⟩ := hdir
  have hsome : (dir.find? (fun c => c.firebaseUserId == some u)).isSome := by
    rw [List.find?_isSome]
    exact ⟨c0, List.mem_of_mem_take hc0mem, by simpa using hc0p⟩
  obtain ⟨c, hfind⟩ := Option.isSome_iff_exists.mp hsome
  have hcmem : c ∈ dir := List.mem_of_find?_eq_some hfind
  have hcp : c.firebaseUserId = some u := by
    have := List.find?_some hfind
    simpa using this
  obtain ⟨n, hscan⟩ := scanGo_found u dir 0 c hfind
  have h1 : createCustomer dir none newId cache u =
      ⟨.ok c.id, mapSet cache u c.id, n, []⟩ := by
    simp [createCustomer, scan, hu, hc, hscan]
  refine ⟨c, hcmem, hcp, ?_, ?_, ?_⟩
  · rw [h1]
  · rw [h1]
    exact mapGet_mapSet_self cache u c.id
  · rw [h1]

/-- Witness for C2: cache empty, a single matching directory record. -/
theorem c2_directory_hit_no_create_witness :
    (createCustomer [⟨"cus_9", some "u1"⟩] none "cus_new" [] "u1").resp = .ok "cus_9" ∧
    mapGet (createCustomer [⟨"cus_9", some "u1"⟩] none "cus_new" [] "u1").cacheAfter
      "u1" = some "cus_9" ∧
    (createCustomer [⟨"cus_9", some "u1"⟩] none "cus_new" [] "u1").creates = [] := by
  obtain ⟨c, hcmem, hcp, h1, h2, h3⟩ :=
    c2_directory_hit_no_create [⟨"cus_9", some "u1"⟩] "cus_new" [] "u1"
      (by decide) rfl ⟨⟨"cus_9", some "u1"⟩, by simp, rfl⟩
  rw [List.mem_singleton] at hcmem
  rw [hcmem] at h1 h2
  exact ⟨h1, h2, h3⟩

/-- Claim C3: a user id present in the cache is answered from the cache in
both backends, with no list request, no record creation and the cache left
unchanged. -/
theorem c3_cache_hit_no_external_calls
    (dir : List Customer) (failAt : Option Nat) (newId : String)
    (cache : Cache) (u cid : String)
    (hu : u ≠ "") (hc : mapGet cache u = some cid) :
    createCustomer dir failAt newId cache u = ⟨.ok cid, cache, 0, []⟩ ∧
    createCustomerSimple newId cache u = ⟨.ok cid, cache, 0, []⟩ := by
  constructor <;> simp [createCustomer, createCustomerSimple, hu, hc]

/-- Witness for C3: cache holding u1 bound to cus_5. -/
theorem c3_cache_hit_no_external_calls_witness :
    createCustomer [] none "cus_x" [("u1", "cus_5")] "u1" =
      ⟨.ok "cus_5", [("u1", "cus_5")], 0, []⟩ ∧
    createCustomerSimple "cus_x" [("u1", "cus_5")] "u1" =
      ⟨.ok "cus_5", [("u1", "cus_5")], 0, []⟩ :=
  c3_cache_hit_no_external_calls [] none "cus_x" [("u1", "cus_5")] "u1" "cus_5"
    (by decide) (by decide)

/-- Claim C4 (code bug): the source comment announces a cap of 1000 scanned
records (10 list requests), but the loop only stops on `has_more` false or
a short page; on a directory of 1001 records none of which matches, the
handler issues 11 list requests and scans all 1001 records. -/
theorem c4_thousand_record_cap_not_enforced :
    (createCustomer (List.replicate 1001 ⟨"cus_other", some "someone-else"⟩)
        none "cus_new" [] "u1").listCalls = 11 := by
  have h : ∀ c ∈ List.replicate 1001
      ({ id := "cus_other", firebaseUserId := some "someone-else" } : Customer),
      ¬ (c.firebaseUserId == some "u1") := by
    intro c hk
    rw [List.eq_of_mem_replicate hk]
    decide
  have hscan := scanGo_notFound_count "u1"
    (List.replicate 1001 ⟨"cus_other", some "someone-else"⟩) 0 h
  simp only [List.length_replicate] at hscan
  have h11 : 0 + max 1 ((1001 + 99) / 100) = 11 := by decide
  rw [h11] at hscan
  have hscan2 : scan "u1" none
      (List.replicate 1001 ⟨"cus_other", some "someone-else"⟩) =
      .notFound 11 := by
    rw [scan]
    exact hscan
  rw [createCustomer, if_neg (by decide : ¬ ("u1" : String) = ""),
    show mapGet ([] : Cache) "u1" = none from rfl, hscan2]

/-- Claim C5: when the directory scan throws on some page, the error is
swallowed: the handler still creates one tagged record, stores the mapping
and answers 200 with the new id. -/
theorem c5_scan_error_swallowed
    (dir : List Customer) (failAt : Option Nat) (newId : String)
    (cache : Cache) (u : String) (n : Nat)
    (hu : u ≠ "") (hc : mapGet cache u = none)
    (hscan : scan u failAt dir = .failed n) :
    createCustomer dir failAt newId cache u =
      ⟨.ok newId, mapSet cache u newId, n, [⟨newId, some u⟩]⟩ ∧
    mapGet (createCustomer dir failAt newId cache u).cacheAfter u = some newId := by
  have h1 : createCustomer dir failAt newId cache u =
      ⟨.ok newId, mapSet cache u newId, n, [⟨newId, some u⟩]⟩ := by
    simp [createCustomer, hu, hc, hscan]
  refine ⟨h1, ?_⟩
  rw [h1]
  exact mapGet_mapSet_self cache u newId

/-- Witness for C5: the very first list request throws. -/
theorem c5_scan_error_swallowed_witness :
    createCustomer [] (some 0) "cus_1" [] "u1" =
      ⟨.ok "cus_1", mapSet [] "u1" "cus_1", 1, [⟨"cus_1", some "u1"⟩]⟩ ∧
    mapGet (createCustomer [] (some 0) "cus_1" [] "u1").cacheAfter "u1" =
      some "cus_1" :=
  c5_scan_error_swallowed [] (some 0) "cus_1" [] "u1" 1 (by decide) rfl
    (by show scanGo "u1" (some 0) ([] : List Customer) 0 = .failed 1
        rw [scanGo]
        simp)

/-- Claim C6: once the cache binds a user id to a (non-empty) customer id,
no handler run — resolution or payment-methods lookup, in either backend,
for any requested user id and any vendor environment — rebinds or removes
that entry. -/
theorem c6_binding_never_rebound
    (cache : Cache) (u c : String)
    (hc : mapGet cache u = some c) (hne : c ≠ "")
    (v : String) (dir dir2 : List Customer) (failAt failAt2 : Option Nat)
    (newId : String) :
    mapGet (createCustomer dir failAt newId cache v).cacheAfter u = some c ∧
    mapGet (createCustomerSimple newId cache v).cacheAfter u = some c ∧
    mapGet (paymentMethods dir2 failAt2 cache v).cacheAfter u = some c ∧
    mapGet (paymentMethodsSimple cache v).cacheAfter u = some c := by
  have huv : mapGet cache v = none → u ≠ v := by
    intro hg hh
    rw [← hh] at hg
    rw [hc] at hg
    exact Option.noConfusion hg
  have huv2 : jsFalsy (mapGet cache v) = true → u ≠ v := by
    intro hg hh
    rw [← hh, hc] at hg
    simp [jsFalsy] at hg
    exact hne hg
  refine ⟨?_, ?_, ?_, ?_⟩
  · rcases createCustomer_cacheAfter dir failAt newId cache v with h | ⟨hg, x, hx⟩
    · rw [h]
      exact hc
    · rw [hx, mapGet_mapSet_ne cache v x u (huv hg)]
      exact hc
  · rcases createCustomerSimple_cacheAfter newId cache v with h | ⟨hg, hx⟩
    · rw [h]
      exact hc
    · rw [hx, mapGet_mapSet_ne cache v newId u (huv hg)]
      exact hc
  · rcases paymentMethods_cacheAfter dir2 failAt2 cache v with h | ⟨hg, x, hx⟩
    · rw [h]
      exact hc
    · rw [hx, mapGet_mapSet_ne cache v x u (huv2 hg)]
      exact hc
  · rw [paymentMethodsSimple_cacheAfter cache v]
    exact hc

/-- Witness for C6: u1 bound to cus_5 survives all four handlers run for u2. -/
theorem c6_binding_never_rebound_witness :
    mapGet (createCustomer [] none "cus_9" [("u1", "cus_5")] "u2").cacheAfter
      "u1" = some "cus_5" ∧
    mapGet (createCustomerSimple "cus_9" [("u1", "cus_5")] "u2").cacheAfter
      "u1" = some "cus_5" ∧
    mapGet (paymentMethods [] none [("u1", "cus_5")] "u2").cacheAfter
      "u1" = some "cus_5" ∧
    mapGet (paymentMethodsSimple [("u1", "cus_5")] "u2").cacheAfter
      "u1" = some "cus_5" :=
  c6_binding_never_rebound [("u1", "cus_5")] "u1" "cus_5" (by decide)
    (by decide) "u2" [] [] none none "cus_9"

/-- Claim C7 (counterexample): a vendor failure that is neither an
input-validation nor a resource-absence error — here a rate-limit error
whose message merely contains the word account — is answered by the
bank-payout handler with HTTP 400 and a static guidance text, not with
HTTP 500 carrying the vendor message verbatim. -/
theorem c7_verbatim_500_counterexample :
    (bankPayoutCatch
      ⟨"Your account has exceeded its rate limit", some "rate_limit", none⟩).status
        = 400 ∧
    (bankPayoutCatch
      ⟨"Your account has exceeded its rate limit", some "rate_limit", none⟩).error
        ≠ "Your account has exceeded its rate limit" := by
  constructor <;> decide

/-- Claim C7 as amended, a complete case analysis of the three handlers:
the payment-intent handler answers every vendor exception with 500 and the
message verbatim; the setup-intent handler answers the mode-mismatch case
(resource_missing with a message mentioning test mode) with 400 and the
static CUSTOMER_MODE_MISMATCH body and every other exception with 500
verbatim; the bank-payout handler answers 400 with its static payout-setup
guidance whenever the code is account_invalid or account_required or the
message contains the word account, failing that 400 with its static
payouts-not-enabled guidance whenever the code is payouts_not_allowed or
the message contains payout, and every remaining exception with 500
verbatim; its middle invalid-bank-details 400 branch is unreachable, since
a message containing bank_account always contains account and is captured
by the first branch. The 400 remaps include vendor failures that are
neither input-validation nor resource-absence. -/
theorem c7_amended_vendor_failure_500_verbatim (e : VendorError) :
    paymentIntentCatch e = { status := 500, error := e.message } ∧
    (e.code = some "resource_missing" ∧ strIncludes e.message "test mode" = true →
      setupIntentCatch e =
        { status := 400, error := "CUSTOMER_MODE_MISMATCH",
          message := some "The customer was created with a test Stripe key, but the server is now using a live key. Please delete the stripeCustomerId from Firestore and try again." }) ∧
    (¬ (e.code = some "resource_missing" ∧ strIncludes e.message "test mode" = true) →
      setupIntentCatch e =
        { status := 500, error := e.message,
          errType := some (e.errType.getD "unknown"),
          code := some (e.code.getD "unknown") }) ∧
    (e.code = some "account_invalid" ∨ strIncludes e.message "account" = true ∨
        e.code = some "account_required" →
      bankPayoutCatch e =
        { status := 400,
          error := "Your Stripe account needs to be set up for payouts. Please complete the setup in your Stripe Dashboard: 1) Verify your identity, 2) Add a bank account, 3) Enable payouts in Settings → Payment methods → Payouts. Visit https://dashboard.stripe.com/settings/payouts" }) ∧
    (strIncludes e.message "bank_account" = true →
      strIncludes e.message "account" = true) ∧
    (¬ (e.code = some "account_invalid" ∨ strIncludes e.message "account" = true ∨
        e.code = some "account_required") →
      e.code = some "payouts_not_allowed" ∨ strIncludes e.message "payout" = true →
      bankPayoutCatch e =
        { status := 400,
          error := "Payouts are not enabled for your account. Please complete account verification and add a bank account in your Stripe Dashboard at https://dashboard.stripe.com/settings/payouts" }) ∧
    (¬ (e.code = some "account_invalid" ∨ strIncludes e.message "account" = true ∨
        e.code = some "account_required") →
      ¬ (e.code = some "payouts_not_allowed" ∨ strIncludes e.message "payout" = true) →
      bankPayoutCatch e = { status := 500, error := e.message }) := by
  have hdead : ∀ h1 : ¬ (e.code = some "account_invalid" ∨
      strIncludes e.message "account" = true ∨ e.code = some "account_required"),
      ¬ (e.code = some "invalid_request_error" ∧
        strIncludes e.message "bank_account" = true) := by
    rintro h1 ⟨-, hb⟩
    exact h1 (Or.inr (Or.inl (strIncludes_account_of_bank_account e.message hb)))
  refine ⟨rfl, ?_, ?_, ?_, strIncludes_account_of_bank_account e.message, ?_, ?_⟩
  · intro h
    simp only [setupIntentCatch]
    rw [if_pos h]
  · intro h
    simp only [setupIntentCatch]
    rw [if_neg h]
  · intro h1
    simp only [bankPayoutCatch]
    rw [if_pos h1]
  · intro h1 h3
    simp only [bankPayoutCatch]
    rw [if_neg h1, if_neg (hdead h1), if_pos h3]
  · intro h1 h3
    simp only [bankPayoutCatch]
    rw [if_neg h1, if_neg (hdead h1), if_neg h3]

/-- Witness for the amended C7, exercising every branch: a generic failure
(500 verbatim in all three handlers), the mode mismatch, an account-worded
rate limit, a bank_account-worded message, and a payouts-not-allowed code. -/
theorem c7_amended_vendor_failure_500_verbatim_witness :
    paymentIntentCatch ⟨"boom", none, none⟩ = { status := 500, error := "boom" } ∧
    setupIntentCatch ⟨"A similar object exists in test mode", some "resource_missing", none⟩ =
      { status := 400, error := "CUSTOMER_MODE_MISMATCH",
        message := some "The customer was created with a test Stripe key, but the server is now using a live key. Please delete the stripeCustomerId from Firestore and try again." } ∧
    setupIntentCatch ⟨"boom", none, none⟩ =
      { status := 500, error := "boom",
        errType := some "unknown", code := some "unknown" } ∧
    bankPayoutCatch ⟨"rate limit hit for this account", some "rate_limit", none⟩ =
      { status := 400,
        error := "Your Stripe account needs to be set up for payouts. Please complete the setup in your Stripe Dashboard: 1) Verify your identity, 2) Add a bank account, 3) Enable payouts in Settings → Payment methods → Payouts. Visit https://dashboard.stripe.com/settings/payouts" } ∧
    strIncludes "bad bank_account data" "account" = true ∧
    bankPayoutCatch ⟨"not allowed", some "payouts_not_allowed", none⟩ =
      { status := 400,
        error := "Payouts are not enabled for your account. Please complete account verification and add a bank account in your Stripe Dashboard at https://dashboard.stripe.com/settings/payouts" } ∧
    bankPayoutCatch ⟨"boom", none, none⟩ = { status := 500, error := "boom" } := by
  obtain ⟨hp1, -, hp3, -, -, -, hp7⟩ :=
    c7_amended_vendor_failure_500_verbatim ⟨"boom", none, none⟩
  obtain ⟨-, hm2, -, -, -, -, -⟩ := c7_amended_vendor_failure_500_verbatim
    ⟨"A similar object exists in test mode", some "resource_missing", none⟩
  obtain ⟨-, -, -, ha4, -, -, -⟩ := c7_amended_vendor_failure_500_verbatim
    ⟨"rate limit hit for this account", some "rate_limit", none⟩
  obtain ⟨-, -, -, -, hb5, -, -⟩ := c7_amended_vendor_failure_500_verbatim
    ⟨"bad bank_account data", some "invalid_request_error", none⟩
  obtain ⟨-, -, -, -, -, hy6, -⟩ := c7_amended_vendor_failure_500_verbatim
    ⟨"not allowed", some "payouts_not_allowed", none⟩
  exact ⟨hp1, hm2 (by decide), hp3 (by decide), ha4 (by decide), hb5 (by decide),
    hy6 (by decide) (by decide), hp7 (by decide) (by decide)⟩

/-- Claim C8: a transfer failing with vendor code balance_insufficient is
answered with HTTP 400, the code echoed, and the retry-later message. -/
theorem c8_balance_insufficient_mapped_400 (e : VendorError)
    (h : e.code = some "balance_insufficient") :
    transferCatch e =
      { status := 400, error := "Insufficient available balance",
        code := some "balance_insufficient",
        message := some "Transfer will be retried when funds are available" } := by
  simp only [transferCatch]
  rw [if_pos h]

/-- Witness for C8. -/
theorem c8_balance_insufficient_mapped_400_witness :
    transferCatch ⟨"Insufficient funds in Stripe balance",
        some "balance_insufficient", none⟩ =
      { status := 400, error := "Insufficient available balance",
        code := some "balance_insufficient",
        message := some "Transfer will be retried when funds are available" } :=
  c8_balance_insufficient_mapped_400
    ⟨"Insufficient funds in Stripe balance", some "balance_insufficient", none⟩ rfl

/-- Claim C9: the scan terminates on every finite directory, issuing at
most length / 100 + 1 list requests — each iteration either exits or moves
the cursor a full page forward, so no page is fetched twice. -/
theorem c9_scan_requests_bounded (uid : String) (failAt : Option Nat)
    (dir : List Customer) :
    (scan uid failAt dir).requests ≤ dir.length / 100 + 1 := by
  have h := scanGo_requests_le uid failAt dir 0
  simpa [scan] using h

/-- Claim C10: a user id with no associated customer — absent from the
cache and, for the searching variant, from the directory — is answered 200
with an empty payment-method list by both backends, not with an error. -/
theorem c10_unknown_user_empty_list
    (dir : List Customer) (cache : Cache) (u : String)
    (hc : mapGet cache u = none)
    (hdir : ∀ c ∈ dir, c.firebaseUserId ≠ some u) :
    (paymentMethods dir none cache u).status = 200 ∧
    (paymentMethods dir none cache u).body = .emptyList ∧
    (paymentMethodsSimple cache u).status = 200 ∧
    (paymentMethodsSimple cache u).body = .emptyList := by
  have hfind : dir.find? (fun c => c.firebaseUserId == some u) = none := by
    rw [List.find?_eq_none]
    intro x hx
    simpa using hdir x hx
  obtain ⟨n, hscan⟩ := scanGo_notFound u dir 0 hfind
  have h1 : paymentMethods dir none cache u = ⟨200, .emptyList, cache, n⟩ := by
    simp [paymentMethods, scan, hc, hscan, jsFalsy]
  have h2 : paymentMethodsSimple cache u = ⟨200, .emptyList, cache, 0⟩ := by
    simp [paymentMethodsSimple, hc, jsFalsy]
  rw [h1, h2]
  exact ⟨rfl, rfl, rfl, rfl⟩

/-- Witness for C10: empty cache and directory, user u1. -/
theorem c10_unknown_user_empty_list_witness :
    (paymentMethods [] none [] "u1").status = 200 ∧
    (paymentMethods [] none [] "u1").body = .emptyList ∧
    (paymentMethodsSimple [] "u1").status = 200 ∧
    (paymentMethodsSimple [] "u1").body = .emptyList :=
  c10_unknown_user_empty_list [] [] "u1" rfl (by simp)

end StripeBackend
